import Mathlib

/-!
Shallow embedding of `src/best-sql.py` (class `SqliteConnection`): a thin
generic data-access wrapper over a SQLite connection.

The SQLite store is modelled as an association list of named tables; a table
carries its column list (the schema declared outside this repository) and its
rows; a row is the ordered column-name/value mapping that `dict(sqlite3.Row)`
produces.  The `id` column is modelled as the INTEGER PRIMARY KEY rowid alias
that the demo tables of the repository (and the concrete scenario, which
expects a store-assigned identifier) rely on: `INSERT` without an explicit id
assigns max existing id + 1 and reports it as `lastrowid`, and an explicit
duplicate id is a constraint error.  Pre-existing tables read by the
operations are arbitrary (the repository does no schema management), so read
paths are stated over arbitrary table contents.

Python exceptions are `Except.error`; a function that catches exceptions at
its boundary still has the `Except` return type but never produces `.error`.
Text printed to standard output is returned as a list of diagnostic strings.
SQLite semantics mirrored here: `cursor.rowcount` after UPDATE/DELETE is the
number of rows matched by the WHERE clause (SQLite counts an update to
identical values as a change); `fetchone` consumes the cursor one row at a
time; comparisons with SQL NULL are not matches.
-/

/-- A SQLite value: integer, text, or NULL. -/
inductive Val where
  | i (n : Int)
  | s (t : String)
  | null
deriving DecidableEq

/-- A result row: the ordered column-name/value mapping `dict(sqlite3.Row)`
yields. -/
abbrev Row := List (String × Val)

/-- First value bound to a column name in a row (rows bind each name once). -/
def Row.lookupVal : Row → String → Option Val
  | [], _ => none
  | (k, v) :: rest, key => if k = key then some v else Row.lookupVal rest key

/-- SQL `=` comparison: NULL compares equal to nothing, and values of
different storage classes are unequal. -/
def valEq : Val → Val → Bool
  | Val.i a, Val.i b => a == b
  | Val.s a, Val.s b => a == b
  | _, _ => false

/-- One table of the store: its declared columns and its current rows. -/
structure Table where
  cols : List String
  rows : List Row
deriving DecidableEq

/-- The file-backed store: named tables. -/
abbrev DB := List (String × Table)

/-- Errors the underlying engine (or Python itself) can raise. -/
inductive Err where
  | noSuchTable (name : String)
  | noSuchColumn
  | malformedSql
  | typeError
  | datatypeMismatch
  | constraintViolation (table : String)
deriving DecidableEq

/-- The text of the exception, as interpolated into the diagnostic print. -/
def Err.msg : Err → String
  | Err.noSuchTable n => "no such table: " ++ n
  | Err.noSuchColumn => "no such column"
  | Err.malformedSql => "incomplete input"
  | Err.typeError => "cannot convert NoneType to dict"
  | Err.datatypeMismatch => "datatype mismatch"
  | Err.constraintViolation t => "UNIQUE constraint failed: " ++ t ++ ".id"

/-- Resolve a table name, as statement preparation does. -/
def DB.getTable : DB → String → Except Err Table
  | [], tn => Except.error (Err.noSuchTable tn)
  | (n, t) :: rest, tn => if n = tn then Except.ok t else DB.getTable rest tn

/-- Store an updated table back under its name. -/
def DB.replaceTable : DB → String → Table → DB
  | [], _, _ => []
  | (n, t0) :: rest, tn, t =>
    if n = tn then (n, t) :: rest else (n, t0) :: DB.replaceTable rest tn t

/-- Does a row satisfy `id = ?` for the given integer parameter? -/
def matchesId (r : Row) (itemId : Int) : Bool :=
  match r.lookupVal "id" with
  | some v => valEq v (Val.i itemId)
  | none => false

/-- Does a row satisfy a single `col = ?` predicate? -/
def matchesPred (r : Row) (kv : String × Val) : Bool :=
  match r.lookupVal kv.1 with
  | some v => valEq v kv.2
  | none => false

/-- Does a row satisfy at least one predicate of an OR-combined WHERE clause? -/
def matchesAny (r : Row) (preds : List (String × Val)) : Bool :=
  preds.any (matchesPred r)

/-- A single-statement cursor: the rows not yet fetched. -/
abbrev Cursor := List Row

/-- `cursor.fetchone()`: next row (or `None`) and the advanced cursor. -/
def fetchone : Cursor → Option Row × Cursor
  | [] => (none, [])
  | r :: rs => (some r, rs)

/-- Python truthiness of a fetch result: `None` is falsy, a `sqlite3.Row` is
truthy iff it has at least one column. -/
def rowTruthy : Option Row → Bool
  | none => false
  | some r => !r.isEmpty

/-!
The connection singleton (`SqliteConnection._conn`, `get_connection`,
`get_cursor`).  Connection handles are numbered; `nextHandle` models the
fresh handle `sqlite3.connect` would hand out next.  `get_cursor` returns the
handle of the connection its fresh cursor is bound to.
-/

/-- The class-level connection state: `_conn` starts as `None`. -/
structure ConnState where
  conn : Option Nat
  nextHandle : Nat
deriving DecidableEq

/-- `get_connection`: create the connection on first use, then reuse it. -/
def get_connection (s : ConnState) : ConnState × Nat :=
  match s.conn with
  | some c => (s, c)
  | none => (⟨some s.nextHandle, s.nextHandle + 1⟩, s.nextHandle)

/-- `get_cursor`: a fresh cursor on the singleton connection; we record which
connection it is bound to. -/
def get_cursor (s : ConnState) : ConnState × Nat :=
  get_connection s

/-!
The query-string construction of `get_by_expression` (the f-string with the
`" OR ".join(...)` of the conditions), modelled verbatim so the malformed
empty-predicate query is visible.
-/

/-- The `" OR ".join(f"{key} = ?" ...)` conditions fragment. -/
def conditionsString (preds : List (String × Val)) : String :=
  String.intercalate " OR " (preds.map (fun kv => kv.1 ++ " = ?"))

/-- The full SELECT text `get_by_expression` executes. -/
def getByExpressionQuery (tn : String) (preds : List (String × Val)) : String :=
  "SELECT * FROM " ++ tn ++ " WHERE " ++ conditionsString preds

/-!
Statement execution, one helper per SQL shape the wrapper emits.  Each
returns `Except Err`: preparation fails on a missing table or column, and
the engine reports result rows, an affected-row count, or `lastrowid`.
-/

/-- Execute `SELECT * FROM tn WHERE id = ?`. -/
def execSelectById (db : DB) (tn : String) (itemId : Int) : Except Err (List Row) := do
  let t ← DB.getTable db tn
  if t.cols.contains "id" then Except.ok (t.rows.filter (fun r => matchesId r itemId))
  else Except.error Err.noSuchColumn

/-- Execute `SELECT * FROM tn WHERE c1 = ? OR c2 = ? OR ...`.  An empty
conditions list makes the SQL text end in `WHERE `, a syntax error at
preparation, before the table name is even resolved. -/
def execSelectWhereAny (db : DB) (tn : String) (preds : List (String × Val)) :
    Except Err (List Row) :=
  if preds.isEmpty then Except.error Err.malformedSql
  else do
    let t ← DB.getTable db tn
    if preds.all (fun kv => t.cols.contains kv.1) then
      Except.ok (t.rows.filter (fun r => matchesAny r preds))
    else Except.error Err.noSuchColumn

/-- Apply a SET clause to one row: each listed column gets its new value. -/
def applyFields (r : Row) (fields : List (String × Val)) : Row :=
  fields.foldl
    (fun acc kv => acc.map (fun kv0 => if kv0.1 = kv.1 then (kv0.1, kv.2) else kv0)) r

/-- Execute `UPDATE tn SET ... WHERE id = ?`; yields the new store and
`cursor.rowcount`, which SQLite sets to the number of rows matched by the
WHERE clause (identical new values still count). -/
def execUpdate (db : DB) (tn : String) (fields : List (String × Val)) (itemId : Int) :
    Except Err (DB × Nat) := do
  let t ← DB.getTable db tn
  if fields.all (fun kv => t.cols.contains kv.1) && t.cols.contains "id" then
    Except.ok
      (DB.replaceTable db tn
        ⟨t.cols, t.rows.map (fun r => if matchesId r itemId then applyFields r fields else r)⟩,
       (t.rows.filter (fun r => matchesId r itemId)).length)
  else Except.error Err.noSuchColumn

/-- `lastrowid` assignment: one past the largest id in the table (1 when
empty), as SQLite assigns rowids. -/
def Table.maxId (t : Table) : Int :=
  t.rows.foldl
    (fun m r => match r.lookupVal "id" with
      | some (Val.i n) => max m n
      | _ => m) 0

/-- The freshly inserted row: listed columns take the given values, the id
column takes the assigned rowid, unlisted columns are NULL. -/
def mkRow (cols : List String) (fields : List (String × Val)) (newId : Int) : Row :=
  cols.map (fun c =>
    (c, match Row.lookupVal fields c with
        | some v => v
        | none => if c = "id" then Val.i newId else Val.null))

/-- Execute `INSERT INTO tn (...) VALUES (...)`; yields the new store and
`cursor.lastrowid`.  An explicit id must be an integer (the id column is the
INTEGER PRIMARY KEY) and must not collide with an existing row. -/
def execInsert (db : DB) (tn : String) (fields : List (String × Val)) :
    Except Err (DB × Int) := do
  let t ← DB.getTable db tn
  if fields.all (fun kv => t.cols.contains kv.1) then
    match Row.lookupVal fields "id" with
    | some (Val.i n) =>
      if t.rows.any (fun r => matchesId r n) then
        Except.error (Err.constraintViolation tn)
      else
        Except.ok (DB.replaceTable db tn ⟨t.cols, t.rows ++ [mkRow t.cols fields n]⟩, n)
    | some _ => Except.error Err.datatypeMismatch
    | none =>
      let newId := t.maxId + 1
      Except.ok (DB.replaceTable db tn ⟨t.cols, t.rows ++ [mkRow t.cols fields newId]⟩, newId)
  else Except.error Err.noSuchColumn

/-- Execute `DELETE FROM tn WHERE id = ?`; yields the new store and
`cursor.rowcount` = number of rows removed. -/
def execDelete (db : DB) (tn : String) (itemId : Int) : Except Err (DB × Nat) := do
  let t ← DB.getTable db tn
  if t.cols.contains "id" then
    Except.ok
      (DB.replaceTable db tn ⟨t.cols, t.rows.filter (fun r => !matchesId r itemId)⟩,
       (t.rows.filter (fun r => matchesId r itemId)).length)
  else Except.error Err.noSuchColumn

/-!
The five public operations of `SqliteConnection`.  Read paths have no
try/except, so an engine error propagates as `.error`.  Mutating paths wrap
execution in try/except, printing `f"Error ...: {e}"` and returning `False`;
their results carry the possibly-updated store, the boolean, and the lines
printed to standard output.
-/

/-- `get_all(table_name)`: unconditioned SELECT, all rows as mappings. -/
def get_all (db : DB) (tn : String) : Except Err (List Row) := do
  let t ← DB.getTable db tn
  Except.ok t.rows

/-- `get_by_id(table_name, item_id)`: executes the SELECT, then evaluates
`dict(c.fetchone()) if c.fetchone() else None`.  Python evaluates the
condition first, so the first fetch is the truthiness test and the second
materializes; `dict(None)` raises TypeError. -/
def get_by_id (db : DB) (tn : String) (itemId : Int) : Except Err (Option Row) := do
  let results ← execSelectById db tn itemId
  let condFetch := fetchone results
  if rowTruthy condFetch.1 then
    match (fetchone condFetch.2).1 with
    | some r => Except.ok (some r)
    | none => Except.error Err.typeError
  else Except.ok none

/-- `get_by_expression(table_name, **kwargs)`: OR-combined SELECT, all
matching rows as mappings.  No guard against empty kwargs, no try/except. -/
def get_by_expression (db : DB) (tn : String) (preds : List (String × Val)) :
    Except Err (List Row) :=
  execSelectWhereAny db tn preds

/-- `update_table(table_name, item_id, **kwargs)`: early `False` on empty
kwargs, else UPDATE in a try/except returning `rowcount > 0`. -/
def update_table (db : DB) (tn : String) (itemId : Int) (fields : List (String × Val)) :
    Except Err (DB × Bool × List String) :=
  if fields.isEmpty then Except.ok (db, false, [])
  else
    match execUpdate db tn fields itemId with
    | Except.ok (db2, n) => Except.ok (db2, decide (0 < n), [])
    | Except.error e => Except.ok (db, false, ["Error updating table: " ++ e.msg])

/-- `insert_into_table(table_name, **kwargs)`: early `False` on empty kwargs,
else INSERT in a try/except returning `lastrowid > 0`. -/
def insert_into_table (db : DB) (tn : String) (fields : List (String × Val)) :
    Except Err (DB × Bool × List String) :=
  if fields.isEmpty then Except.ok (db, false, [])
  else
    match execInsert db tn fields with
    | Except.ok (db2, rid) => Except.ok (db2, decide (0 < rid), [])
    | Except.error e => Except.ok (db, false, ["Error inserting into table: " ++ e.msg])

/-- `delete_from_table(table_name, item_id)`: DELETE in a try/except
returning `rowcount > 0`. -/
def delete_from_table (db : DB) (tn : String) (itemId : Int) :
    Except Err (DB × Bool × List String) :=
  match execDelete db tn itemId with
  | Except.ok (db2, n) => Except.ok (db2, decide (0 < n), [])
  | Except.error e => Except.ok (db, false, ["Error deleting from table: " ++ e.msg])

/-!
Concrete states used to exercise the operations: the `people` table of the
concrete scenario in the spec, the same table after the Ada insert, a table
holding one row, and a pre-existing table with no uniqueness constraint on
its id column holding two rows with the same id.
-/

/-- The `people` table (columns `id`, `name`, `age`), initially empty. -/
def peopleDB : DB := [("people", ⟨["id", "name", "age"], []⟩)]

/-- The row the Ada insert produces. -/
def adaRow : Row := [("id", Val.i 1), ("name", Val.s "Ada"), ("age", Val.i 30)]

/-- The store after inserting Ada into `people`. -/
def adaDB : DB := [("people", ⟨["id", "name", "age"], [adaRow]⟩)]

/-- A one-row table: id 1, age 30. -/
def ageDB : DB := [("p", ⟨["id", "age"], [[("id", Val.i 1), ("age", Val.i 30)]]⟩)]

/-- A pre-existing table whose id column carries no uniqueness constraint,
holding two rows that both have id 1. -/
def dupIdDB : DB :=
  [("dups", ⟨["id", "name"],
    [[("id", Val.i 1), ("name", Val.s "first")],
     [("id", Val.i 1), ("name", Val.s "second")]]⟩)]

/-!
Shared lemmas about the embedding.
-/

/-- Replacing a table that resolves leaves it resolving to the replacement. -/
theorem getTable_replaceTable (db : DB) (tn : String) (t t2 : Table)
    (h : DB.getTable db tn = Except.ok t) :
    DB.getTable (DB.replaceTable db tn t2) tn = Except.ok t2 := by
  induction db with
  | nil => simp [DB.getTable] at h
  | cons p rest ih =>
    obtain ⟨n, t0⟩ := p
    by_cases hn : n = tn
    · subst hn
      simp [DB.getTable, DB.replaceTable]
    · simp only [DB.getTable, DB.replaceTable, if_neg hn] at h ⊢
      exact ih h

/-- A row that satisfies `id = ?` binds the id column, so it is nonempty and
hence truthy as a fetch result. -/
theorem rowTruthy_of_matchesId (r : Row) (itemId : Int)
    (h : matchesId r itemId = true) : rowTruthy (some r) = true := by
  cases r with
  | nil => simp [matchesId, Row.lookupVal] at h
  | cons a l => simp [rowTruthy, List.isEmpty]

/-- `rowcount > 0` is exactly: some row satisfies the predicate. -/
theorem decide_filter_length_pos {α : Type} (p : α → Bool) (l : List α) :
    decide (0 < (l.filter p).length) = l.any p := by
  cases h : l.any p
  · have hnil : l.filter p = [] := by
      rw [List.filter_eq_nil_iff]
      intro a ha hpa
      have : l.any p = true := List.any_eq_true.mpr ⟨a, ha, hpa⟩
      rw [h] at this
      exact Bool.false_ne_true this
    simp [hnil]
  · obtain ⟨a, ha, hpa⟩ := List.any_eq_true.mp h
    have hmem : a ∈ l.filter p := List.mem_filter.mpr ⟨ha, hpa⟩
    have hpos : 0 < (l.filter p).length := List.length_pos.mpr (by
      intro hnil
      rw [hnil] at hmem
      exact (List.not_mem_nil a) hmem)
    simp [hpos]

/-- Full behavior of `get_by_id` once the SELECT prepares: the double fetch
returns the sentinel on no match, raises TypeError on exactly one match, and
returns the second matching row when several rows match. -/
theorem get_by_id_spec (db : DB) (tn : String) (itemId : Int) (t : Table)
    (ht : DB.getTable db tn = Except.ok t) (hid : t.cols.contains "id" = true) :
    get_by_id db tn itemId =
      match t.rows.filter (fun r => matchesId r itemId) with
      | [] => Except.ok none
      | [_] => Except.error Err.typeError
      | _ :: r2 :: _ => Except.ok (some r2) := by
  have hsel : execSelectById db tn itemId =
      Except.ok (t.rows.filter (fun r => matchesId r itemId)) := by
    unfold execSelectById
    rw [ht]
    have hmemId : "id" ∈ t.cols := by simpa using hid
    simp [Bind.bind, Except.bind, hmemId]
  unfold get_by_id
  rw [hsel]
  simp only [Bind.bind, Except.bind]
  cases hfil : t.rows.filter (fun r => matchesId r itemId) with
  | nil => simp [fetchone, rowTruthy]
  | cons r1 rs =>
    have hmem : r1 ∈ t.rows.filter (fun r => matchesId r itemId) := by
      rw [hfil]
      exact List.mem_cons_self r1 rs
    have hm1 : matchesId r1 itemId = true := (List.mem_filter.mp hmem).2
    cases rs with
    | nil => simp [fetchone, rowTruthy_of_matchesId r1 itemId hm1]
    | cons r2 rs2 => simp [fetchone, rowTruthy_of_matchesId r1 itemId hm1]

/-- C4: for every table name and id, `update_table` with an empty field
mapping returns `false` immediately: nothing is executed, nothing is
printed, and the store — hence every row of every table — is unchanged. -/
theorem update_table_empty_fields_noop (db : DB) (tn : String) (itemId : Int) :
    update_table db tn itemId [] = Except.ok (db, false, []) := rfl

/-- C8: for every store and table name, `get_by_expression` with an empty
predicate set builds the malformed text `SELECT * FROM tn WHERE ` (a WHERE
clause with no conditions) and, having no guard, propagates the engine error
to the caller instead of returning normally. -/
theorem get_by_expression_empty_malformed (db : DB) (tn : String) :
    get_by_expression db tn [] = Except.error Err.malformedSql ∧
    getByExpressionQuery tn [] = "SELECT * FROM " ++ tn ++ " WHERE " := by
  refine ⟨rfl, ?_⟩
  simp [getByExpressionQuery, conditionsString, String.intercalate]

/-- C2: evaluating the concrete scenario of the spec: inserting Ada into the
empty `people` table succeeds (the assigned identifier is 1), but reading
the new row back with `get_by_id` raises TypeError instead of returning the
inserted row — the insert/read-by-id round trip fails on the code. -/
theorem insert_then_get_by_id_raises :
    insert_into_table peopleDB "people" [("name", Val.s "Ada"), ("age", Val.i 30)] =
      Except.ok (adaDB, true, []) ∧
    get_by_id adaDB "people" 1 = Except.error Err.typeError :=
  ⟨rfl, rfl⟩

/-- C1 counterexample: on the one-row `people` store, `get_by_id` at the
matching id does not yield the not-found sentinel — it raises TypeError —
so it does not return the sentinel for every input. -/
theorem get_by_id_not_always_sentinel :
    get_by_id adaDB "people" 1 = Except.error Err.typeError ∧
    (Except.error Err.typeError : Except Err (Option Row)) ≠ Except.ok none :=
  ⟨rfl, fun h => Except.noConfusion h⟩

/-- C1 (amended): `get_by_id` calls fetch twice and the truthiness test — the
first call — consumes the cursor; when no row matches it returns the
not-found sentinel, but when exactly one row matches the materializing second
fetch finds the cursor exhausted and `dict(None)` raises TypeError, so a
matched single row produces an exception, not the sentinel. -/
theorem get_by_id_sentinel_or_raise (db : DB) (tn : String) (itemId : Int) (t : Table)
    (ht : DB.getTable db tn = Except.ok t) (hid : t.cols.contains "id" = true) :
    (t.rows.filter (fun r => matchesId r itemId) = [] →
      get_by_id db tn itemId = Except.ok none) ∧
    (∀ r, t.rows.filter (fun r2 => matchesId r2 itemId) = [r] →
      get_by_id db tn itemId = Except.error Err.typeError) := by
  constructor
  · intro hfil
    rw [get_by_id_spec db tn itemId t ht hid, hfil]
  · intro r hfil
    rw [get_by_id_spec db tn itemId t ht hid, hfil]

/-- Witness for C1 (amended): at a non-matching id the sentinel comes back. -/
theorem get_by_id_sentinel_or_raise_witness :
    get_by_id adaDB "people" 2 = Except.ok none :=
  (get_by_id_sentinel_or_raise adaDB "people" 2
    ⟨["id", "name", "age"], [adaRow]⟩ rfl rfl).1 rfl

/-- C5 counterexample: updating the age-30 row with `age = 30` changes no
value of any row — the store comes back identical — yet `update_table`
returns `true`: SQLite counts a row updated to identical values. -/
theorem update_table_true_without_change :
    update_table ageDB "p" 1 [("age", Val.i 30)] = Except.ok (ageDB, true, []) := rfl

/-- C5 (amended): for every table, id and non-empty field mapping on which
the UPDATE executes without error, `update_table` returns `true` iff at
least one row matched the WHERE clause — merely matching suffices, because
the engine reports rows updated to identical values in `rowcount`. -/
theorem update_table_true_iff_matched (db : DB) (tn : String) (itemId : Int)
    (fields : List (String × Val)) (t : Table)
    (hne : fields.isEmpty = false)
    (ht : DB.getTable db tn = Except.ok t)
    (hcols : (fields.all (fun kv => t.cols.contains kv.1) && t.cols.contains "id") = true) :
    update_table db tn itemId fields =
      Except.ok (DB.replaceTable db tn
        ⟨t.cols, t.rows.map (fun r => if matchesId r itemId then applyFields r fields else r)⟩,
        t.rows.any (fun r => matchesId r itemId), []) ∧
    (t.rows.any (fun r => matchesId r itemId) = true ↔
      ∃ r ∈ t.rows, matchesId r itemId = true) := by
  have hexec : execUpdate db tn fields itemId =
      Except.ok (DB.replaceTable db tn
        ⟨t.cols, t.rows.map (fun r => if matchesId r itemId then applyFields r fields else r)⟩,
        (t.rows.filter (fun r => matchesId r itemId)).length) := by
    unfold execUpdate
    rw [ht]
    simp only [Bind.bind, Except.bind]
    rw [if_pos (by simpa using hcols)]
  constructor
  · unfold update_table
    simp [hne, hexec, decide_filter_length_pos]
  · exact List.any_eq_true

/-- Witness for C5 (amended): a real change also reports `true`. -/
theorem update_table_true_iff_matched_witness :
    update_table ageDB "p" 1 [("age", Val.i 31)] =
      Except.ok ([("p", ⟨["id", "age"], [[("id", Val.i 1), ("age", Val.i 31)]]⟩)],
        true, []) := by
  rw [(update_table_true_iff_matched ageDB "p" 1 [("age", Val.i 31)]
    ⟨["id", "age"], [[("id", Val.i 1), ("age", Val.i 30)]]⟩ rfl rfl rfl).1]
  rfl

/-- C10 counterexample: on a pre-existing table whose id column has no
uniqueness constraint and holds two rows with id 1, `get_by_id` returns the
second matching row as a mapping — so it does not hold that it never
returns a row mapping, nor that it raises whenever at least one row
matches. -/
theorem get_by_id_returns_second_duplicate :
    get_by_id dupIdDB "dups" 1 =
      Except.ok (some [("id", Val.i 1), ("name", Val.s "second")]) := rfl

/-- C10 (amended): whenever at most one row matches the id — in particular
for any table whose id column is unique — `get_by_id` never returns a row
mapping: no match yields the not-found sentinel and exactly one match makes
the exhausted-cursor second fetch raise TypeError; only a duplicated id can
produce a returned row. -/
theorem get_by_id_never_returns_unique_row (db : DB) (tn : String) (itemId : Int)
    (t : Table) (ht : DB.getTable db tn = Except.ok t)
    (hid : t.cols.contains "id" = true)
    (hu : (t.rows.filter (fun r => matchesId r itemId)).length ≤ 1) :
    (get_by_id db tn itemId = Except.ok none ∨
     get_by_id db tn itemId = Except.error Err.typeError) ∧
    ((t.rows.filter (fun r => matchesId r itemId)).length = 1 →
      get_by_id db tn itemId = Except.error Err.typeError) := by
  have hspec := get_by_id_spec db tn itemId t ht hid
  rcases hfil : t.rows.filter (fun r => matchesId r itemId) with _ | ⟨r1, _ | ⟨r2, rs⟩⟩
  · have h0 : get_by_id db tn itemId = Except.ok none := by rw [hspec, hfil]
    refine ⟨Or.inl h0, ?_⟩
    intro habs
    simp at habs
  · have h1 : get_by_id db tn itemId = Except.error Err.typeError := by rw [hspec, hfil]
    exact ⟨Or.inr h1, fun _ => h1⟩
  · rw [hfil] at hu
    simp at hu

/-- C3: the three mutating operations never raise: on every input the result
is an ok value, and whenever the underlying execution reports any error the
operation converts it into the unchanged store, a `false` return, and the
corresponding diagnostic line for standard output. -/
theorem mutators_never_raise (db : DB) (tn : String) (itemId : Int)
    (fields : List (String × Val)) (e : Err) :
    (update_table db tn itemId fields).isOk = true ∧
    (insert_into_table db tn fields).isOk = true ∧
    (delete_from_table db tn itemId).isOk = true ∧
    (execUpdate db tn fields itemId = Except.error e → fields.isEmpty = false →
      update_table db tn itemId fields =
        Except.ok (db, false, ["Error updating table: " ++ e.msg])) ∧
    (execInsert db tn fields = Except.error e → fields.isEmpty = false →
      insert_into_table db tn fields =
        Except.ok (db, false, ["Error inserting into table: " ++ e.msg])) ∧
    (execDelete db tn itemId = Except.error e →
      delete_from_table db tn itemId =
        Except.ok (db, false, ["Error deleting from table: " ++ e.msg])) := by
  refine ⟨?_, ?_, ?_, ?_, ?_, ?_⟩
  · unfold update_table
    split
    · rfl
    · split <;> rfl
  · unfold insert_into_table
    split
    · rfl
    · split <;> rfl
  · unfold delete_from_table
    split <;> rfl
  · intro hexec hne
    unfold update_table
    simp [hne, hexec]
  · intro hexec hne
    unfold insert_into_table
    simp [hne, hexec]
  · intro hexec
    unfold delete_from_table
    simp [hexec]

/-- Witness for C3: a missing table makes the UPDATE fail inside the guard
and come back as false plus the printed diagnostic. -/
theorem mutators_never_raise_witness :
    update_table [] "missing" 1 [("a", Val.i 1)] =
      Except.ok ([], false,
        ["Error updating table: " ++ Err.msg (Err.noSuchTable "missing")]) :=
  (mutators_never_raise [] "missing" 1 [("a", Val.i 1)]
    (Err.noSuchTable "missing")).2.2.2.1 rfl rfl

/-- C6: whenever the DELETE prepares, `delete_from_table` removes exactly the
rows matching the id and returns `true` iff at least one row matched (was
removed) — `false` on a non-existent id — and a subsequent `get_by_id` on
the deleted id finds no row (the sentinel comes back). -/
theorem delete_from_table_spec (db : DB) (tn : String) (itemId : Int) (t : Table)
    (ht : DB.getTable db tn = Except.ok t) (hid : t.cols.contains "id" = true) :
    delete_from_table db tn itemId =
      Except.ok (DB.replaceTable db tn
        ⟨t.cols, t.rows.filter (fun r => !matchesId r itemId)⟩,
        t.rows.any (fun r => matchesId r itemId), []) ∧
    (t.rows.any (fun r => matchesId r itemId) = true ↔
      ∃ r ∈ t.rows, matchesId r itemId = true) ∧
    get_by_id (DB.replaceTable db tn
        ⟨t.cols, t.rows.filter (fun r => !matchesId r itemId)⟩) tn itemId =
      Except.ok none := by
  have hexec : execDelete db tn itemId = Except.ok
      (DB.replaceTable db tn ⟨t.cols, t.rows.filter (fun r => !matchesId r itemId)⟩,
       (t.rows.filter (fun r => matchesId r itemId)).length) := by
    unfold execDelete
    rw [ht]
    simp only [Bind.bind, Except.bind]
    rw [if_pos (by simpa using hid)]
  refine ⟨?_, List.any_eq_true, ?_⟩
  · unfold delete_from_table
    simp [hexec, decide_filter_length_pos]
  · have ht2 := getTable_replaceTable db tn t
      ⟨t.cols, t.rows.filter (fun r => !matchesId r itemId)⟩ ht
    have hkept : (t.rows.filter (fun r => !matchesId r itemId)).filter
        (fun r => matchesId r itemId) = [] := by
      rw [List.filter_eq_nil_iff]
      intro a ha
      have hna := (List.mem_filter.mp ha).2
      simp only [Bool.not_eq_true'] at hna
      simp [hna]
    rw [get_by_id_spec (DB.replaceTable db tn
        ⟨t.cols, t.rows.filter (fun r => !matchesId r itemId)⟩) tn itemId
        ⟨t.cols, t.rows.filter (fun r => !matchesId r itemId)⟩ ht2 hid]
    rw [show (⟨t.cols, t.rows.filter (fun r => !matchesId r itemId)⟩ : Table).rows =
        t.rows.filter (fun r => !matchesId r itemId) from rfl, hkept]

/-- Witness for C6: deleting the only row of the one-row table reports true
and empties it. -/
theorem delete_from_table_spec_witness :
    delete_from_table ageDB "p" 1 =
      Except.ok ([("p", ⟨["id", "age"], []⟩)], true, []) := by
  rw [(delete_from_table_spec ageDB "p" 1
    ⟨["id", "age"], [[("id", Val.i 1), ("age", Val.i 30)]]⟩ rfl rfl).1]
  rfl

/-- A four-row table over columns `a`, `b`; the third row matches both
predicates of the C7 witness, the fourth matches neither. -/
def exprDB : DB :=
  [("t", ⟨["a", "b"],
    [[("a", Val.i 1), ("b", Val.i 0)],
     [("a", Val.i 0), ("b", Val.i 2)],
     [("a", Val.i 1), ("b", Val.i 2)],
     [("a", Val.i 5), ("b", Val.i 5)]]⟩)]

/-- C7: for every non-empty predicate set over existing columns,
`get_by_expression` returns exactly the rows satisfying at least one
OR-combined predicate, and each row value occurs in the result exactly as
often as it occurs matching in the table — a row satisfying several
predicates is not counted twice. -/
theorem get_by_expression_or_union (db : DB) (tn : String)
    (preds : List (String × Val)) (t : Table)
    (hne : preds.isEmpty = false)
    (ht : DB.getTable db tn = Except.ok t)
    (hcols : preds.all (fun kv => t.cols.contains kv.1) = true) :
    get_by_expression db tn preds =
      Except.ok (t.rows.filter (fun r => matchesAny r preds)) ∧
    (∀ r ∈ t.rows.filter (fun r2 => matchesAny r2 preds), matchesAny r preds = true) ∧
    (∀ r : Row, List.count r (t.rows.filter (fun r2 => matchesAny r2 preds)) =
      if matchesAny r preds then List.count r t.rows else 0) := by
  refine ⟨?_, ?_, ?_⟩
  · unfold get_by_expression execSelectWhereAny
    rw [if_neg (by simp [hne]), ht]
    simp only [Bind.bind, Except.bind]
    rw [if_pos (by simpa using hcols)]
  · intro r hr
    exact (List.mem_filter.mp hr).2
  · intro r
    by_cases hm : matchesAny r preds = true
    · rw [if_pos hm]
      exact List.count_filter hm
    · rw [if_neg hm]
      refine List.count_eq_zero.mpr ?_
      intro hmem
      exact hm (List.mem_filter.mp hmem).2

/-- Witness for C7: with predicates `a = 1 OR b = 2` the union of the
matching rows comes back, the doubly-matching row once. -/
theorem get_by_expression_or_union_witness :
    get_by_expression exprDB "t" [("a", Val.i 1), ("b", Val.i 2)] =
      Except.ok
        [[("a", Val.i 1), ("b", Val.i 0)],
         [("a", Val.i 0), ("b", Val.i 2)],
         [("a", Val.i 1), ("b", Val.i 2)]] := by
  rw [(get_by_expression_or_union exprDB "t" [("a", Val.i 1), ("b", Val.i 2)]
    ⟨["a", "b"],
      [[("a", Val.i 1), ("b", Val.i 0)],
       [("a", Val.i 0), ("b", Val.i 2)],
       [("a", Val.i 1), ("b", Val.i 2)],
       [("a", Val.i 5), ("b", Val.i 5)]]⟩ rfl rfl rfl).1]
  rfl

/-- C9: the connection is a process-wide singleton: `get_connection` creates
it on the first call, the resulting state holds exactly that connection,
every later `get_connection` or `get_cursor` call returns the very same
connection with the state untouched, and on an already-connected state the
call neither recreates nor replaces (nor closes) the connection. -/
theorem connection_singleton (s s2 : ConnState) (c : Nat)
    (h : get_connection s = (s2, c)) :
    s2.conn = some c ∧ get_connection s2 = (s2, c) ∧ get_cursor s2 = (s2, c) ∧
    (∀ c0, s.conn = some c0 → s2 = s ∧ c = c0) := by
  cases hs : s.conn with
  | none =>
    unfold get_connection at h
    rw [hs] at h
    injection h with h1 h2
    subst h1
    subst h2
    refine ⟨rfl, rfl, rfl, ?_⟩
    intro c0 hc0
    exact Option.noConfusion hc0
  | some c0 =>
    unfold get_connection at h
    rw [hs] at h
    injection h with h1 h2
    subst h1
    subst h2
    refine ⟨hs, ?_, ?_, ?_⟩
    · simp [get_connection, hs]
    · simp [get_cursor, get_connection, hs]
    · intro c1 hc1
      injection hc1 with hc2
      exact ⟨rfl, hc2⟩

/-- Witness for C9: after the creating call the connected state reproduces
itself. -/
theorem connection_singleton_witness :
    get_connection ⟨some 0, 1⟩ = (⟨some 0, 1⟩, 0) :=
  (connection_singleton ⟨none, 0⟩ ⟨some 0, 1⟩ 0 rfl).2.1

/-- Witness for C10 (amended): with the unique Ada row matching, the call
raises TypeError rather than returning the row. -/
theorem get_by_id_never_returns_unique_row_witness :
    get_by_id adaDB "people" 1 = Except.error Err.typeError :=
  (get_by_id_never_returns_unique_row adaDB "people" 1
    ⟨["id", "name", "age"], [adaRow]⟩ rfl rfl (by decide)).2 rfl
